import Mathlib

/-!
Shallow embedding of the clitodo interactive list component
(`src/unnamed/part_002`, package `views`), its storage layer
(`src/pkg/storage/fileItemStorage.go` and `domain.Item`), and the parts of
the `bubbles/paginator` model the list component calls into.

Conventions:
- Go `int` is modelled as `Int`; Go integer division/remainder truncate
  toward zero, so they are modelled with `Int.tdiv` / `Int.tmod`.
- Go nil slices that the code distinguishes from non-nil ones
  (`m.filteredItems == nil`) are modelled as `Option (List _)`, with
  `none` for nil.
- A Go operation that can panic (out-of-range slice expression) is
  modelled as returning `Option`, with `none` for the panic.
- Fields of `ListScreen` that none of the verified operations read or that
  are pure presentation (styles, help, spinner, key-binding enabled flags,
  status message) are not part of the model; operations that in the source
  also call `updateKeybindings` or mutate those fields are modelled on the
  remaining fields only.
-/

/-- Items of the todo list; mirrors `domain.Item` (package `pkg`,
src/unnamed/part_000): `ItemTitle string` with json tag "name" and
`ItemCompleted bool` with json tag "completed". -/
structure Item where
  ItemTitle : String
  ItemCompleted : Bool
deriving DecidableEq

/-- Go zero value of the `Item` struct. -/
instance : Inhabited Item := ⟨⟨"", false⟩⟩

/-- Mirrors `filteredItem` (src/unnamed/part_002 lines 46-50):
`index int` (index in the unfiltered list), `item domain.Item`, and the
rune indices matched (Go field `matches []int`; `matches` is reserved in
Lean, so the field carries the name of the `Rank` field it copies). -/
structure FilteredItem where
  index : Int
  item : Item
  matchedIndexes : List Int
deriving DecidableEq

/-- Mirrors `FilterState` (src/unnamed/part_002 lines 110-118). -/
inductive FilterState where
  | Unfiltered
  | Filtering
  | FilterApplied
deriving DecidableEq

export FilterState (Unfiltered Filtering FilterApplied)

/-- The fields of `bubbles/paginator.Model` that the list component uses. -/
structure PaginatorModel where
  Page : Int
  PerPage : Int
  TotalPages : Int
deriving DecidableEq

/-- Mirrors `paginator.Model.SetTotalPages`: no-op when `items < 1`,
otherwise `TotalPages` becomes `items / PerPage`, plus one when the
remainder is positive (ceiling division, in Go's truncating arithmetic). -/
def PaginatorModel.SetTotalPages (p : PaginatorModel) (items : Int) : PaginatorModel :=
  if items < 1 then p
  else
    let n := Int.tdiv items p.PerPage
    let n := if Int.tmod items p.PerPage > 0 then n + 1 else n
    { p with TotalPages := n }

/-- Mirrors `paginator.Model.GetSliceBounds`:
`start = Page*PerPage`, `end = min(start+PerPage, length)`. -/
def PaginatorModel.GetSliceBounds (p : PaginatorModel) (length : Int) : Int × Int :=
  let start := p.Page * p.PerPage
  (start, min (start + p.PerPage) length)

/-- Mirrors `paginator.Model.ItemsOnPage`: 0 when `totalItems < 1`,
otherwise `end - start` of the slice bounds. -/
def PaginatorModel.ItemsOnPage (p : PaginatorModel) (totalItems : Int) : Int :=
  if totalItems < 1 then 0
  else
    let b := p.GetSliceBounds totalItems
    b.2 - b.1

/-- Mirrors `paginator.Model.OnLastPage`. -/
def PaginatorModel.OnLastPage (p : PaginatorModel) : Bool :=
  p.Page == p.TotalPages - 1

/-- Mirrors `paginator.Model.PrevPage`: decrement `Page` unless already 0. -/
def PaginatorModel.PrevPage (p : PaginatorModel) : PaginatorModel :=
  if p.Page > 0 then { p with Page := p.Page - 1 } else p

/-- Mirrors `paginator.Model.NextPage`: increment `Page` unless on the last
page. -/
def PaginatorModel.NextPage (p : PaginatorModel) : PaginatorModel :=
  if ¬ p.OnLastPage then { p with Page := p.Page + 1 } else p

/-- The state of the list component, mirroring the fields of `ListScreen`
(src/unnamed/part_002 lines 132-189) that the verified operations read or
write.  `filterValue` stands for `FilterInput.Value()`.  `height` is the
component height and `chromeHeight` the combined rendered height of the
title/status/pagination/help bars that `updatePagination` subtracts when
the corresponding show-flags are set; the claims quantify over it, so it
is carried as one abstract field.  `delegateHeight`/`delegateSpacing`
stand for `delegate.Height()`/`delegate.Spacing()`. -/
structure ListScreen where
  items : List Item
  filteredItems : Option (List FilteredItem)
  filterState : FilterState
  filterValue : String
  Paginator : PaginatorModel
  cursor : Int
  InfiniteScrolling : Bool
  height : Int
  chromeHeight : Int
  delegateHeight : Int
  delegateSpacing : Int
deriving DecidableEq

/-- Go `len(m.filteredItems)`: length of a possibly-nil slice. -/
def fiLen (fi : Option (List FilteredItem)) : Nat :=
  match fi with
  | none => 0
  | some l => l.length

/-- Mirrors `filteredItems.items()` (src/unnamed/part_002 lines 54-60),
applied to the possibly-nil slice. -/
def fiItems (fi : Option (List FilteredItem)) : List Item :=
  match fi with
  | none => []
  | some l => l.map (·.item)

/-- Mirrors `ListScreen.VisibleItems` (lines 444-449): the filtered
projection when any filter state is active, the master list otherwise. -/
def ListScreen.VisibleItems (m : ListScreen) : List Item :=
  if m.filterState ≠ Unfiltered then fiItems m.filteredItems else m.items

/-- Mirrors `ListScreen.Index` (lines 478-480):
`Paginator.Page*Paginator.PerPage + cursor`. -/
def ListScreen.Index (m : ListScreen) : Int :=
  m.Paginator.Page * m.Paginator.PerPage + m.cursor

/-- Mirrors `ListScreen.GlobalIndex` (lines 484-492).  When a filter view
exists and the index is inside it, the recorded `index` field of the
matched entry is returned; a negative index into a non-nil filter slice
would panic in Go, hence `Option`. -/
def ListScreen.GlobalIndex (m : ListScreen) : Option Int :=
  let index := m.Index
  match m.filteredItems with
  | none => some index
  | some fi =>
    if (fi.length : Int) ≤ index then some index
    else if index < 0 then none
    else (fi[index.toNat]?).map (·.index)

/-- Mirrors `ListScreen.SelectedItem` (lines 452-461): nil (`none`) when
the linear index is negative, the visible list is empty, or the index is
at or past its end; otherwise the visible item at the index. -/
def ListScreen.SelectedItem (m : ListScreen) : Option Item :=
  let i := m.Index
  let items := m.VisibleItems
  if i < 0 ∨ items.length = 0 ∨ (items.length : Int) ≤ i then none
  else items[i.toNat]?

/-- Mirrors `ListScreen.itemsAsFilterItems` (lines 715-723).  The Go
composite literal `filteredItem{item: item}` sets only the `item` field,
so `index` takes the int zero value 0 and the match list stays nil. -/
def ListScreen.itemsAsFilterItems (m : ListScreen) : List FilteredItem :=
  m.items.map (fun item => { index := 0, item := item, matchedIndexes := [] })

/-- Mirrors `ListScreen.updatePagination` (lines 773-806).  The available
height is the component height minus the chrome bars
(`chromeHeight` models the four conditional subtractions); `PerPage`
becomes `max 1` of the truncating division by the per-item render height,
total pages are rederived from the visible count, the previous linear
index is redistributed over the new page size, and the page is clamped to
the last page from above. -/
def ListScreen.updatePagination (m : ListScreen) : ListScreen :=
  let index := m.Index
  let availHeight := m.height - m.chromeHeight
  let perPage := max 1 (Int.tdiv availHeight (m.delegateHeight + m.delegateSpacing))
  let p := { m.Paginator with PerPage := perPage }
  let pages := (m.VisibleItems.length : Int)
  let p := if pages < 1 then p.SetTotalPages 1 else p.SetTotalPages pages
  let page := Int.tdiv index perPage
  let cur := Int.tmod index perPage
  let page := if page ≥ p.TotalPages - 1 then max 0 (p.TotalPages - 1) else page
  { m with Paginator := { p with Page := page }, cursor := cur }

/-- Mirrors `ListScreen.resetFiltering` (lines 703-713): no-op when
already `Unfiltered`; otherwise clear the mode, the filter input and the
filter view, then rederive pagination.  (`updateKeybindings` only touches
key-binding enabled flags, which are outside the model.) -/
def ListScreen.resetFiltering (m : ListScreen) : ListScreen :=
  if m.filterState = Unfiltered then m
  else
    ListScreen.updatePagination
      { m with filterState := Unfiltered, filterValue := "", filteredItems := none }

/-- Mirrors `ListScreen.CursorUp` (lines 501-525). -/
def ListScreen.CursorUp (m : ListScreen) : ListScreen :=
  let m := { m with cursor := m.cursor - 1 }
  if m.cursor < 0 ∧ m.Paginator.Page = 0 then
    if m.InfiniteScrolling then
      let m := { m with Paginator := { m.Paginator with Page := m.Paginator.TotalPages - 1 } }
      { m with cursor := m.Paginator.ItemsOnPage (m.VisibleItems.length : Int) - 1 }
    else
      { m with cursor := 0 }
  else if m.cursor ≥ 0 then m
  else
    let m := { m with Paginator := m.Paginator.PrevPage }
    { m with cursor := m.Paginator.ItemsOnPage (m.VisibleItems.length : Int) - 1 }

/-- Mirrors `ListScreen.CursorDown` (lines 529-561). -/
def ListScreen.CursorDown (m : ListScreen) : ListScreen :=
  let itemsOnPage := m.Paginator.ItemsOnPage (m.VisibleItems.length : Int)
  let m := { m with cursor := m.cursor + 1 }
  if m.cursor < itemsOnPage then m
  else if ¬ m.Paginator.OnLastPage then
    { m with Paginator := m.Paginator.NextPage, cursor := 0 }
  else if m.cursor > itemsOnPage then { m with cursor := 0 }
  else
    let m := { m with cursor := itemsOnPage - 1 }
    if m.InfiniteScrolling then
      { m with Paginator := { m.Paginator with Page := 0 }, cursor := 0 }
    else m

/-- Mirrors `ListScreen.MoveItemDown` (lines 571-577): swap the master
items at `cursor` and `cursor+1` unless the cursor is negative or at/past
the last item. -/
def ListScreen.MoveItemDown (m : ListScreen) : ListScreen :=
  if m.cursor < 0 ∨ m.cursor ≥ (m.items.length : Int) - 1 then m
  else
    let c := m.cursor.toNat
    let a := m.items.getD c default
    let b := m.items.getD (c + 1) default
    { m with items := (m.items.set c b).set (c + 1) a }

/-- Mirrors the cursor clamp at the end of `handleBrowsing`
(lines 980-983): pull the cursor back into the current page. -/
def ListScreen.clampCursorToPage (m : ListScreen) : ListScreen :=
  let itemsOnPage := m.Paginator.ItemsOnPage (m.VisibleItems.length : Int)
  if m.cursor > itemsOnPage - 1 then { m with cursor := max 0 (itemsOnPage - 1) }
  else m

/-- The `MoveItemDown` key handling in `handleBrowsing` (lines 916-918)
followed by its trailing cursor clamp: `MoveItemDown(); CursorDown()`,
then the clamp.  (The delegate update in between is the default delegate
with a nil `UpdateFunc`, a no-op.) -/
def ListScreen.moveItemDownKey (m : ListScreen) : ListScreen :=
  ((m.MoveItemDown).CursorDown).clampCursorToPage

/-- Mirrors `insertItemIntoSlice` (lines 1355-1360).  An empty slice takes
a plain append whatever the index; otherwise the Go slice expressions
`items[:index]` and `items[index:]` panic (modelled as `none`) when
`index` is negative or exceeds the length. -/
def insertItemIntoSlice (items : List Item) (item : Item) (index : Int) : Option (List Item) :=
  if items.length = 0 then some (items ++ [item])
  else if index < 0 ∨ (items.length : Int) < index then none
  else some (items.take index.toNat ++ item :: items.drop index.toNat)

/-- Mirrors `removeItemFromSlice` (lines 1362-1368): no-op when
`index >= len`; otherwise shift left and truncate.  A negative index
reaches `i[index:]`, which panics in Go (modelled as `none`). -/
def removeItemFromSlice (i : List Item) (index : Int) : Option (List Item) :=
  if (i.length : Int) ≤ index then some i
  else if index < 0 then none
  else some (i.take index.toNat ++ i.drop (index.toNat + 1))

/-- Mirrors the `AcceptWhileFiltering` branch of `handleFiltering`
(lines 1000-1021): bail out on an empty master list; clear the filter
when the live match set is empty; otherwise apply the filter, and clear
it again immediately when the query text is empty.
(`hideStatusMessage`, `FilterInput.Blur` and `updateKeybindings` touch
only fields outside the model.) -/
def ListScreen.acceptFiltering (m : ListScreen) : ListScreen :=
  if m.items.length = 0 then m
  else
    let h := m.VisibleItems
    if h.length = 0 then m.resetFiltering
    else
      let m := { m with filterState := FilterApplied }
      if m.filterValue = "" then m.resetFiltering else m

/-- The full `handleFiltering` effect of an accept keypress: the switch
branch above, then the unconditional `m.updatePagination()` at the end of
`handleFiltering` (line 1038).  The accept key does not change the text
input's value, so the `filterChanged` re-filter is not triggered. -/
def ListScreen.handleFilteringAccept (m : ListScreen) : ListScreen :=
  (m.acceptFiltering).updatePagination

/-! Storage layer (`src/pkg/storage/fileItemStorage.go`).  The persisted
file holds a JSON document; `GetItems` unmarshals it into `[]domain.Item`
and `StoreItemsState` re-marshals the items.  The JSON layer is modelled
by a small value AST and by Go's `encoding/json` semantics for the
`Item` struct with tags `name`/`completed`: unknown object keys are
ignored, `null` leaves a field at its zero value, later duplicate keys
overwrite earlier ones, and a type mismatch is an unmarshal error. -/

/-- JSON values, as far as the persisted todo file needs them. -/
inductive Jval where
  | jnull
  | jbool (b : Bool)
  | jnum (n : Int)
  | jstr (s : String)
  | jarr (xs : List Jval)
  | jobj (fields : List (String × Jval))

/-- Unmarshalling one object field into an `Item`, per the struct tags of
`domain.Item`: "name" must be a string, "completed" must be a bool,
`null` is a no-op, any other key is ignored. -/
def setItemField (it : Item) : String × Jval → Option Item
  | ("name", Jval.jstr s) => some { it with ItemTitle := s }
  | ("name", Jval.jnull) => some it
  | ("name", _) => none
  | ("completed", Jval.jbool b) => some { it with ItemCompleted := b }
  | ("completed", Jval.jnull) => some it
  | ("completed", _) => none
  | (_, _) => some it

/-- Unmarshalling one array element into a `domain.Item`: an object is
folded field by field over the zero-valued struct; `null` leaves the zero
value; anything else is a type error. -/
def decodeItem (v : Jval) : Option Item :=
  match v with
  | Jval.jobj fields => fields.foldlM setItemField default
  | Jval.jnull => some default
  | _ => none

/-- Decoding the elements of a JSON array in order, aborting at the first
element that fails to unmarshal. -/
def decodeItems (vs : List Jval) : Option (List Item) :=
  match vs with
  | [] => some []
  | v :: rest => (decodeItem v).bind fun it => (decodeItems rest).map fun tail => it :: tail

/-- Mirrors `FileItemStorage.GetItems` unmarshalling the file's JSON into
`[]domain.Item`: the document must be an array (or `null`, which leaves
the slice nil); each element is decoded in order. -/
def GetItems (v : Jval) : Option (List Item) :=
  match v with
  | Jval.jnull => some []
  | Jval.jarr xs => decodeItems xs
  | _ => none

/-- Marshalling one `domain.Item` per its struct tags. -/
def itemToJson (it : Item) : Jval :=
  Jval.jobj [("name", Jval.jstr it.ItemTitle), ("completed", Jval.jbool it.ItemCompleted)]

/-- Mirrors `FileItemStorage.StoreItemsState`: encode the items, in
order, as a JSON array of `{name, completed}` objects. -/
def StoreItemsState (items : List Item) : Jval :=
  Jval.jarr (items.map itemToJson)

/-! Concrete states used by the claim theorems, their counterexamples and
their witnesses. -/

/-- Item with title "A", not completed. -/
def itemA : Item := ⟨"A", false⟩

/-- Item with title "B", not completed. -/
def itemB : Item := ⟨"B", false⟩

/-- Item with title "C", not completed. -/
def itemC : Item := ⟨"C", false⟩

/-- The state reached from master `[A, B]` after pressing the filter key
with an empty query: `handleBrowsing` seeds `filteredItems` with
`itemsAsFilterItems` and sets the mode to `Filtering`; the user then
moves the cursor to visible position 1 (page 0, per-page 2, cursor 1). -/
def stC1 : ListScreen :=
  { items := [itemA, itemB]
    filteredItems := some [⟨0, itemA, []⟩, ⟨0, itemB, []⟩]
    filterState := Filtering
    filterValue := ""
    Paginator := ⟨0, 2, 1⟩
    cursor := 1
    InfiniteScrolling := false
    height := 10, chromeHeight := 4, delegateHeight := 1, delegateSpacing := 1 }

/-- A browsing state with three items, two pages of two rows and the
cursor on the second page, used to exercise the pagination recompute. -/
def stC4 : ListScreen :=
  { items := [itemA, itemB, itemC]
    filteredItems := none
    filterState := Unfiltered
    filterValue := ""
    Paginator := ⟨1, 2, 2⟩
    cursor := 0
    InfiniteScrolling := false
    height := 7, chromeHeight := 4, delegateHeight := 1, delegateSpacing := 1 }

/-- Three visible items over two pages (per-page 2), cursor on the very
first item, infinite scrolling enabled. -/
def stC5w : ListScreen :=
  { items := [itemA, itemB, itemC]
    filteredItems := none
    filterState := Unfiltered
    filterValue := ""
    Paginator := ⟨0, 2, 2⟩
    cursor := 0
    InfiniteScrolling := true
    height := 10, chromeHeight := 4, delegateHeight := 1, delegateSpacing := 1 }

/-- Filtering over an empty master collection (reachable: the delete key
is handled in `Update` before mode dispatch, so items can be removed
while the filter prompt is open) with a non-empty query and an empty
live match set. -/
def stC6x : ListScreen :=
  { items := []
    filteredItems := some []
    filterState := Filtering
    filterValue := "x"
    Paginator := ⟨0, 2, 1⟩
    cursor := 0
    InfiniteScrolling := false
    height := 10, chromeHeight := 4, delegateHeight := 1, delegateSpacing := 1 }

/-- Filtering over a non-empty master collection with a query that
matches nothing (empty live match set). -/
def stC6w : ListScreen :=
  { items := [itemA]
    filteredItems := some []
    filterState := Filtering
    filterValue := "x"
    Paginator := ⟨0, 2, 1⟩
    cursor := 0
    InfiniteScrolling := false
    height := 10, chromeHeight := 4, delegateHeight := 1, delegateSpacing := 1 }

/-- An `Unfiltered` state carrying a stale non-nil filter view (reachable:
`Update` stores an arriving `FilterMatchesMsg` unconditionally, also after
the filter was cancelled). -/
def stC7x : ListScreen :=
  { items := [itemA]
    filteredItems := some [⟨0, itemA, []⟩]
    filterState := Unfiltered
    filterValue := ""
    Paginator := ⟨0, 2, 1⟩
    cursor := 0
    InfiniteScrolling := false
    height := 10, chromeHeight := 4, delegateHeight := 1, delegateSpacing := 1 }

/-- A `FilterApplied` state with a live filter view for query "b". -/
def stC7w : ListScreen :=
  { items := [itemA, itemB]
    filteredItems := some [⟨1, itemB, [0]⟩]
    filterState := FilterApplied
    filterValue := "b"
    Paginator := ⟨0, 2, 1⟩
    cursor := 0
    InfiniteScrolling := false
    height := 10, chromeHeight := 4, delegateHeight := 1, delegateSpacing := 1 }

/-- The spec scenario state: master `[A, B, C]`, unfiltered, a single
page of three rows, cursor at global index 1 (item B). -/
def scenC8 : ListScreen :=
  { items := [itemA, itemB, itemC]
    filteredItems := none
    filterState := Unfiltered
    filterValue := ""
    Paginator := ⟨0, 3, 1⟩
    cursor := 1
    InfiniteScrolling := false
    height := 10, chromeHeight := 4, delegateHeight := 1, delegateSpacing := 1 }

/-- A valid persisted document: two records, the second with reordered
keys and an extra ignored field. -/
def vC9 : Jval :=
  Jval.jarr
    [Jval.jobj [("name", Jval.jstr "A"), ("completed", Jval.jbool false)],
     Jval.jobj [("completed", Jval.jbool true), ("name", Jval.jstr "B"), ("extra", Jval.jnum 7)]]

/-- A state whose visible list is empty. -/
def stC10a : ListScreen :=
  { items := []
    filteredItems := none
    filterState := Unfiltered
    filterValue := ""
    Paginator := ⟨0, 2, 1⟩
    cursor := 0
    InfiniteScrolling := false
    height := 10, chromeHeight := 4, delegateHeight := 1, delegateSpacing := 1 }

/-- A state with two visible items and the selection on the second. -/
def stC10b : ListScreen :=
  { items := [itemA, itemB]
    filteredItems := none
    filterState := Unfiltered
    filterValue := ""
    Paginator := ⟨0, 2, 1⟩
    cursor := 1
    InfiniteScrolling := false
    height := 10, chromeHeight := 4, delegateHeight := 1, delegateSpacing := 1 }

/-! Helper lemmas shared by the claim theorems. -/

/-- Ceiling-style page count of the paginator is at least 1 for a
positive item count and positive page size. -/
lemma one_le_ceil_tdiv (a b : Int) (ha : 1 ≤ a) (hb : 1 ≤ b) :
    1 ≤ (if Int.tmod a b > 0 then Int.tdiv a b + 1 else Int.tdiv a b) := by
  have hd : 0 ≤ Int.tdiv a b := Int.tdiv_nonneg (by omega) (by omega)
  by_cases h : Int.tmod a b > 0
  · simp only [h, if_true]
    omega
  · have hm : 0 ≤ Int.tmod a b := Int.tmod_nonneg b (by omega)
    have heq : b * Int.tdiv a b + Int.tmod a b = a := Int.tdiv_add_tmod a b
    simp only [h, if_false]
    by_contra hc
    push_neg at hc
    have hz : Int.tdiv a b = 0 := by omega
    rw [hz, mul_zero, zero_add] at heq
    omega

/-- The page clamp at the end of `updatePagination` keeps the page inside
`[0, totalPages - 1]` when the incoming page is nonnegative. -/
lemma clamped_page_bounds (pg tp : Int) (hpg : 0 ≤ pg) (htp : 1 ≤ tp) :
    0 ≤ (if pg ≥ tp - 1 then 0 ⊔ (tp - 1) else pg) ∧
    (if pg ≥ tp - 1 then 0 ⊔ (tp - 1) else pg) ≤ tp - 1 := by
  split_ifs with h
  · refine ⟨le_max_left _ _, ?_⟩
    rw [max_eq_right (by omega : (0:Int) ≤ tp - 1)]
  · exact ⟨hpg, by omega⟩

/-- Number of items on the last page, when the page count is the ceiling
of the item count over the page size. -/
lemma itemsOnPage_last_page (PP TP n : Int) (hn : 1 ≤ n) (hub : n ≤ TP * PP)
    (hlb : (TP - 1) * PP < n) :
    PaginatorModel.ItemsOnPage ⟨TP - 1, PP, TP⟩ n = n - (TP - 1) * PP := by
  unfold PaginatorModel.ItemsOnPage PaginatorModel.GetSliceBounds
  rw [if_neg (by omega : ¬ n < 1)]
  have h1 : (TP - 1) * PP + PP = TP * PP := by ring
  simp only [h1]
  rw [min_eq_right hub]

/-- `updatePagination` never changes the filter mode. -/
lemma updatePagination_filterState (m : ListScreen) :
    (m.updatePagination).filterState = m.filterState := rfl

/-- `updatePagination` never changes the filter view. -/
lemma updatePagination_filteredItems (m : ListScreen) :
    (m.updatePagination).filteredItems = m.filteredItems := rfl

/-- `updatePagination` never changes the filter input value. -/
lemma updatePagination_filterValue (m : ListScreen) :
    (m.updatePagination).filterValue = m.filterValue := rfl

/-- `resetFiltering` returns early on an already unfiltered state. -/
lemma resetFiltering_of_unfiltered (m : ListScreen) (h : m.filterState = Unfiltered) :
    m.resetFiltering = m := by
  unfold ListScreen.resetFiltering
  rw [if_pos h]

/-- After `resetFiltering` the mode is always `Unfiltered`. -/
lemma resetFiltering_filterState (m : ListScreen) :
    (m.resetFiltering).filterState = Unfiltered := by
  unfold ListScreen.resetFiltering
  split_ifs with h
  · exact h
  · rfl

/-- When the state was not already unfiltered, `resetFiltering` clears
the filter view. -/
lemma resetFiltering_filteredItems (m : ListScreen) (h : m.filterState ≠ Unfiltered) :
    (m.resetFiltering).filteredItems = none := by
  unfold ListScreen.resetFiltering
  rw [if_neg h]
  rfl

/-- When the state was not already unfiltered, `resetFiltering` resets
the filter input. -/
lemma resetFiltering_filterValue (m : ListScreen) (h : m.filterState ≠ Unfiltered) :
    (m.resetFiltering).filterValue = "" := by
  unfold ListScreen.resetFiltering
  rw [if_neg h]
  rfl

/-- Accept branch, case: empty master collection is a no-op. -/
lemma acceptFiltering_empty_items (m : ListScreen) (h0 : m.items.length = 0) :
    m.acceptFiltering = m := by
  unfold ListScreen.acceptFiltering
  rw [if_pos h0]

/-- Accept branch, case: empty live match set clears the filter. -/
lemma acceptFiltering_empty_matches (m : ListScreen) (hne : ¬ m.items.length = 0)
    (hv : m.VisibleItems.length = 0) :
    m.acceptFiltering = m.resetFiltering := by
  unfold ListScreen.acceptFiltering
  rw [if_neg hne, if_pos hv]

/-- Accept branch, case: non-empty matches and non-empty query apply the
filter. -/
lemma acceptFiltering_applies (m : ListScreen) (hne : ¬ m.items.length = 0)
    (hv : ¬ m.VisibleItems.length = 0) (hval : ¬ m.filterValue = "") :
    m.acceptFiltering = { m with filterState := FilterApplied } := by
  unfold ListScreen.acceptFiltering
  rw [if_neg hne, if_neg hv, if_neg hval]

/-- Accept branch, case: non-empty matches but an empty query string end
in a cleared filter. -/
lemma acceptFiltering_empty_value (m : ListScreen) (hne : ¬ m.items.length = 0)
    (hv : ¬ m.VisibleItems.length = 0) (hval : m.filterValue = "") :
    m.acceptFiltering = ({ m with filterState := FilterApplied }).resetFiltering := by
  unfold ListScreen.acceptFiltering
  rw [if_neg hne, if_neg hv, if_pos hval]

/-- Decoding the encoding of a single item restores the item. -/
lemma decodeItem_itemToJson (it : Item) : decodeItem (itemToJson it) = some it := rfl

/-- Decoding the element-wise encoding of an item list restores the list. -/
lemma decodeItems_map_itemToJson (items : List Item) :
    decodeItems (items.map itemToJson) = some items := by
  induction items with
  | nil => rfl
  | cons a t ih => simp [decodeItems, decodeItem_itemToJson, ih]

/-- Loading a just-saved item list restores the list. -/
lemma getItems_store (items : List Item) :
    GetItems (StoreItemsState items) = some items := by
  show decodeItems (items.map itemToJson) = some items
  exact decodeItems_map_itemToJson items

/-! Claim theorems. -/

/-- C1: the claim says `GlobalIndex` maps the selected visible position
back through the active filter view to the item's position in the master
collection, for any filter state including `Filtering` with an empty
query.  Evaluating the code at the empty-query seed refutes this: in
`stC1` the selected visible item is B, stored at master index 1, yet
`GlobalIndex` answers 0, because `itemsAsFilterItems` never writes the
`index` field (the Go composite literal leaves it at the zero value), so
every seeded entry records source index 0.  This also contradicts
`GlobalIndex`'s own doc comment ("the index of the currently selected
item as it is stored in the unfiltered list of items"). -/
theorem C1_globalIndex_ignores_seed_positions :
    stC1.filterState = Filtering ∧ stC1.filterValue = "" ∧
    stC1.filteredItems = some stC1.itemsAsFilterItems ∧
    stC1.SelectedItem = some itemB ∧
    stC1.items[1]? = some itemB ∧ stC1.items[0]? = some itemA ∧ itemA ≠ itemB ∧
    stC1.GlobalIndex = some 0 := by decide

/-- C2: the claim says `insert(index, item)` appends when `index` exceeds
the bounds and never panics.  Evaluating `insertItemIntoSlice` refutes
this: on the one-element list `[A]`, index 2 hits the out-of-range slice
expression `items[index:]` and panics (`none` in the model) instead of
appending, while the in-range indices 1 and 0 insert as documented.  The
code contradicts `InsertItem`'s doc comment ("If the index is out of the
upper bound, the item will be appended"). -/
theorem C2_insert_beyond_bounds_panics :
    insertItemIntoSlice [itemA] itemB 2 = none ∧
    insertItemIntoSlice [itemA] itemB 1 = some [itemA, itemB] ∧
    insertItemIntoSlice [itemA] itemB 0 = some [itemB, itemA] ∧
    insertItemIntoSlice [] itemB 5 = some [itemB] := by decide

/-- C3: the claim says `remove(index)` is a harmless no-op for every
out-of-bounds index including negative ones.  Evaluating
`removeItemFromSlice` refutes the negative case: index -1 on `[A]` passes
the `index >= len(i)` guard and panics at `i[index:]` (`none` in the
model), while too-large indices are no-ops and in-range indices remove
exactly the addressed item preserving order.  The code contradicts
`RemoveItem`'s doc comment ("If the index is out of bounds this will be a
no-op"). -/
theorem C3_remove_negative_index_panics :
    removeItemFromSlice [itemA] (-1) = none ∧
    removeItemFromSlice [itemA] 5 = some [itemA] ∧
    removeItemFromSlice [itemA, itemB, itemC] 1 = some [itemA, itemC] ∧
    removeItemFromSlice [] 0 = some [] := by decide

/-- C4: after `updatePagination`, for any viewport height at least 1 and
per-item render height at least 1 and any visible item count (also zero),
the derived page size and total page count are at least 1 and the page is
clamped into `[0, totalPages - 1]` (assuming the incoming cursor state is
nonnegative, the CursorPosition invariant). -/
theorem C4_updatePagination_invariants (m : ListScreen)
    (hview : 1 ≤ m.height - m.chromeHeight)
    (hitem : 1 ≤ m.delegateHeight + m.delegateSpacing)
    (hcur : 0 ≤ m.cursor) (hpage : 0 ≤ m.Paginator.Page)
    (hper : 0 ≤ m.Paginator.PerPage) :
    1 ≤ (m.updatePagination).Paginator.PerPage ∧
    1 ≤ (m.updatePagination).Paginator.TotalPages ∧
    0 ≤ (m.updatePagination).Paginator.Page ∧
    (m.updatePagination).Paginator.Page ≤ (m.updatePagination).Paginator.TotalPages - 1 := by
  have hidx : 0 ≤ m.Index := by
    unfold ListScreen.Index
    exact add_nonneg (mul_nonneg hpage hper) hcur
  simp only [ListScreen.updatePagination, PaginatorModel.SetTotalPages]
  set pp := max 1 (Int.tdiv (m.height - m.chromeHeight) (m.delegateHeight + m.delegateSpacing)) with hpp
  have hpp1 : 1 ≤ pp := le_max_left _ _
  have hpg0 : 0 ≤ Int.tdiv m.Index pp := Int.tdiv_nonneg hidx (by omega)
  by_cases hempty : ((m.VisibleItems.length : Int) < 1)
  · simp only [hempty, if_true, if_neg (by norm_num : ¬ ((1:Int) < 1))]
    have htp : 1 ≤ (if Int.tmod 1 pp > 0 then Int.tdiv 1 pp + 1 else Int.tdiv 1 pp) :=
      one_le_ceil_tdiv 1 pp (by norm_num) (by omega)
    exact ⟨hpp1, htp,
      (clamped_page_bounds (Int.tdiv m.Index pp) _ hpg0 htp).1,
      (clamped_page_bounds (Int.tdiv m.Index pp) _ hpg0 htp).2⟩
  · simp only [hempty, if_false]
    have htp : 1 ≤ (if Int.tmod (m.VisibleItems.length : Int) pp > 0 then
        Int.tdiv (m.VisibleItems.length : Int) pp + 1
        else Int.tdiv (m.VisibleItems.length : Int) pp) :=
      one_le_ceil_tdiv _ pp (by omega) (by omega)
    exact ⟨hpp1, htp,
      (clamped_page_bounds (Int.tdiv m.Index pp) _ hpg0 htp).1,
      (clamped_page_bounds (Int.tdiv m.Index pp) _ hpg0 htp).2⟩

/-- C4 witness: the invariants evaluated on a concrete recompute. -/
theorem C4_updatePagination_invariants_witness :
    1 ≤ (stC4.updatePagination).Paginator.PerPage ∧
    1 ≤ (stC4.updatePagination).Paginator.TotalPages ∧
    0 ≤ (stC4.updatePagination).Paginator.Page ∧
    (stC4.updatePagination).Paginator.Page ≤ (stC4.updatePagination).Paginator.TotalPages - 1 :=
  C4_updatePagination_invariants stC4 (by decide) (by decide) (by decide) (by decide) (by decide)

/-- C5: with the cursor on the very first visible item (offset 0 of page
0), `CursorUp` is the identity when infinite scrolling is off; when it is
on, the cursor wraps to the last page and the last valid offset on it
(the hypotheses state that `TotalPages` is the ceiling of the visible
count over `PerPage`, which `updatePagination` establishes). -/
theorem C5_cursorUp_first_item (m : ListScreen)
    (hc : m.cursor = 0) (hp : m.Paginator.Page = 0)
    (hn : 1 ≤ (m.VisibleItems.length : Int))
    (hpp : 1 ≤ m.Paginator.PerPage)
    (hub : (m.VisibleItems.length : Int) ≤ m.Paginator.TotalPages * m.Paginator.PerPage)
    (hlb : (m.Paginator.TotalPages - 1) * m.Paginator.PerPage < (m.VisibleItems.length : Int)) :
    (¬ m.InfiniteScrolling → m.CursorUp = m) ∧
    (m.InfiniteScrolling →
      (m.CursorUp).Paginator.Page = m.Paginator.TotalPages - 1 ∧
      (m.CursorUp).cursor =
        (m.VisibleItems.length : Int) - 1 - (m.Paginator.TotalPages - 1) * m.Paginator.PerPage) := by
  have hcond : (m.cursor - 1 < 0) ∧ (m.Paginator.Page = 0) := ⟨by omega, hp⟩
  constructor
  · intro hinf
    simp only [Bool.not_eq_true] at hinf
    simp only [ListScreen.CursorUp, if_pos hcond]
    rw [if_neg (by rw [hinf]; simp : ¬ (m.InfiniteScrolling = true))]
    rw [← hc]
  · intro hinf
    simp only [ListScreen.CursorUp, if_pos hcond]
    rw [if_pos hinf]
    refine ⟨rfl, ?_⟩
    show PaginatorModel.ItemsOnPage ⟨m.Paginator.TotalPages - 1, m.Paginator.PerPage,
      m.Paginator.TotalPages⟩ (m.VisibleItems.length : Int) - 1 = _
    rw [itemsOnPage_last_page m.Paginator.PerPage m.Paginator.TotalPages
      (m.VisibleItems.length : Int) hn hub hlb]
    ring

/-- C5 witness: wrapping on a concrete two-page list. -/
theorem C5_cursorUp_first_item_witness :
    (stC5w.CursorUp).Paginator.Page = stC5w.Paginator.TotalPages - 1 ∧
    (stC5w.CursorUp).cursor =
      (stC5w.VisibleItems.length : Int) - 1 -
        (stC5w.Paginator.TotalPages - 1) * stC5w.Paginator.PerPage :=
  (C5_cursorUp_first_item stC5w (by decide) (by decide) (by decide) (by decide)
    (by decide) (by decide)).2 (by decide)

/-- C6 counterexample: the claim says that whenever the live match set is
empty, Accept clears the filter and ends in `Unfiltered`.  In the
reachable state `stC6x` (master collection empty while Filtering) the
live match set is empty, yet Accept bails out at the `len(m.items) == 0`
guard and the mode stays `Filtering`, with the filter view still set. -/
theorem C6_accept_empty_items_counterexample :
    stC6x.filterState = Filtering ∧ stC6x.VisibleItems = [] ∧
    (stC6x.handleFilteringAccept).filterState = Filtering ∧
    (stC6x.handleFilteringAccept).filterState ≠ Unfiltered ∧
    (stC6x.handleFilteringAccept).filteredItems ≠ none := by decide

/-- C6 (amended): from mode `Filtering`, Accept ends in `FilterApplied`
only when the live match set is non-empty; when the live match set is
empty and the master collection is non-empty it clears the filter and
ends `Unfiltered` with no filter view; when the master collection is
empty it is a no-op and the mode remains `Filtering`. -/
theorem C6_accept_transition (m : ListScreen) (hf : m.filterState = Filtering) :
    (m.items = [] → (m.handleFilteringAccept).filterState = Filtering) ∧
    (m.items ≠ [] → m.VisibleItems = [] →
      (m.handleFilteringAccept).filterState = Unfiltered ∧
      (m.handleFilteringAccept).filteredItems = none) ∧
    ((m.handleFilteringAccept).filterState = FilterApplied → m.VisibleItems ≠ []) := by
  refine ⟨?_, ?_, ?_⟩
  · intro h0
    rw [ListScreen.handleFilteringAccept,
      acceptFiltering_empty_items m (by simp [h0]), updatePagination_filterState, hf]
  · intro hne hv
    rw [ListScreen.handleFilteringAccept,
      acceptFiltering_empty_matches m (by simpa using hne) (by simp [hv]),
      updatePagination_filterState, updatePagination_filteredItems]
    refine ⟨resetFiltering_filterState m, resetFiltering_filteredItems m ?_⟩
    rw [hf]
    decide
  · intro hFA
    by_cases h0 : m.items.length = 0
    · rw [ListScreen.handleFilteringAccept, acceptFiltering_empty_items m h0,
        updatePagination_filterState, hf] at hFA
      exact absurd hFA (by decide)
    · by_cases hv : m.VisibleItems.length = 0
      · rw [ListScreen.handleFilteringAccept, acceptFiltering_empty_matches m h0 hv,
          updatePagination_filterState, resetFiltering_filterState] at hFA
        exact absurd hFA (by decide)
      · intro hcon
        exact hv (by simp [hcon])

/-- C6 witness: accepting with no matches over a non-empty master
collection clears the filter. -/
theorem C6_accept_transition_witness :
    (stC6w.handleFilteringAccept).filterState = Unfiltered ∧
    (stC6w.handleFilteringAccept).filteredItems = none :=
  (C6_accept_transition stC6w (by decide)).2.1 (by decide) (by decide)

/-- C7 counterexample: the claim says that after applying ClearFilter
(once or twice) the filter view is always absent.  In the reachable state
`stC7x` (mode `Unfiltered` holding a stale filter view delivered by a
late `FilterMatchesMsg`) `resetFiltering` returns early, so the filter
view is still present after one and after two applications. -/
theorem C7_clearFilter_stale_view_counterexample :
    stC7x.filterState = Unfiltered ∧ stC7x.filteredItems ≠ none ∧
    (stC7x.resetFiltering).filteredItems ≠ none ∧
    ((stC7x.resetFiltering).resetFiltering).filteredItems ≠ none := by decide

/-- C7 (amended): ClearFilter is idempotent — a second application
returns exactly the state of the first — and always leaves the mode
`Unfiltered`; when the starting mode was not already `Unfiltered` it also
clears the filter view and resets the filter input (when the mode was
already `Unfiltered` it is a no-op, leaving any stale view in place). -/
theorem C7_clearFilter_idempotent (m : ListScreen) :
    (m.resetFiltering).resetFiltering = m.resetFiltering ∧
    (m.resetFiltering).filterState = Unfiltered ∧
    (m.filterState ≠ Unfiltered →
      (m.resetFiltering).filteredItems = none ∧ (m.resetFiltering).filterValue = "") := by
  exact ⟨resetFiltering_of_unfiltered _ (resetFiltering_filterState m),
    resetFiltering_filterState m,
    fun h => ⟨resetFiltering_filteredItems m h, resetFiltering_filterValue m h⟩⟩

/-- C7 witness: clearing an applied filter on a concrete state. -/
theorem C7_clearFilter_idempotent_witness :
    (stC7w.resetFiltering).resetFiltering = stC7w.resetFiltering ∧
    (stC7w.resetFiltering).filteredItems = none ∧
    (stC7w.resetFiltering).filterValue = "" := by
  have h := C7_clearFilter_idempotent stC7w
  exact ⟨h.1, (h.2.2 (by decide)).1, (h.2.2 (by decide)).2⟩

/-- C8: `MoveItemDown` is a no-op at the last item (and for a negative
cursor), otherwise it swaps the master item at the cursor with its next
neighbour leaving everything else in place; and in the spec scenario —
master `[A, B, C]`, unfiltered, single page, cursor at global index 1 —
the move-down keypress yields master `[A, C, B]` with the cursor
following the moved item to global index 2. -/
theorem C8_moveItemDown (m : ListScreen) :
    ((m.cursor < 0 ∨ (m.items.length : Int) - 1 ≤ m.cursor) → m.MoveItemDown = m) ∧
    (0 ≤ m.cursor → m.cursor < (m.items.length : Int) - 1 →
      (m.MoveItemDown).items.length = m.items.length ∧
      (m.MoveItemDown).items[m.cursor.toNat]? = m.items[m.cursor.toNat + 1]? ∧
      (m.MoveItemDown).items[m.cursor.toNat + 1]? = m.items[m.cursor.toNat]? ∧
      (∀ j : Nat, j ≠ m.cursor.toNat → j ≠ m.cursor.toNat + 1 →
        (m.MoveItemDown).items[j]? = m.items[j]?)) ∧
    ((scenC8.moveItemDownKey).items = [itemA, itemC, itemB] ∧
      (scenC8.moveItemDownKey).GlobalIndex = some 2) := by
  refine ⟨?_, ?_, by decide⟩
  · intro h
    unfold ListScreen.MoveItemDown
    rw [if_pos (by omega)]
  · intro h0 h1
    have hcond : ¬ (m.cursor < 0 ∨ m.cursor ≥ (m.items.length : Int) - 1) := by omega
    have hlt : m.cursor.toNat < m.items.length := by omega
    have hlt1 : m.cursor.toNat + 1 < m.items.length := by omega
    unfold ListScreen.MoveItemDown
    rw [if_neg hcond]
    refine ⟨by simp, ?_, ?_, ?_⟩
    · rw [List.getElem?_set_ne (by omega), List.getElem?_set_self (by simpa using hlt)]
      rw [List.getD_eq_getElem?_getD, List.getElem?_eq_getElem hlt1]
      rfl
    · rw [List.getElem?_set_self (by simpa using hlt1)]
      rw [List.getD_eq_getElem?_getD, List.getElem?_eq_getElem hlt]
      rfl
    · intro j hj hj1
      rw [List.getElem?_set_ne (by omega), List.getElem?_set_ne (by omega)]

/-- C8 witness: the swap characterization evaluated on the scenario
state. -/
theorem C8_moveItemDown_witness :
    (scenC8.MoveItemDown).items[1]? = scenC8.items[2]? ∧
    (scenC8.MoveItemDown).items[2]? = scenC8.items[1]? ∧
    (scenC8.MoveItemDown).items[0]? = scenC8.items[0]? := by
  have h := (C8_moveItemDown scenC8).2.1 (by decide) (by decide)
  exact ⟨h.2.1, h.2.2.1, h.2.2.2 0 (by decide) (by decide)⟩

/-- C9: for every valid persisted document (one `GetItems` accepts),
saving the loaded items produces a document holding exactly the same
ordered `{name, completed}` records — reloading it yields the same item
list the original document denotes. -/
theorem C9_storage_roundtrip (v : Jval) (items : List Item)
    (h : GetItems v = some items) :
    GetItems (StoreItemsState items) = GetItems v := by
  rw [h]
  exact getItems_store items

/-- C9 witness: round trip through a concrete document with reordered
keys and an ignored extra field. -/
theorem C9_storage_roundtrip_witness :
    GetItems (StoreItemsState [⟨"A", false⟩, ⟨"B", true⟩]) = GetItems vC9 :=
  C9_storage_roundtrip vC9 [⟨"A", false⟩, ⟨"B", true⟩] (by decide)

/-- C10: `SelectedItem` returns `none` (Go nil) whenever the visible list
is empty or the linear index is negative or at/past its end, and
otherwise returns exactly the in-bounds visible item — it never reads
outside the visible list. -/
theorem C10_selectedItem_safe (m : ListScreen) :
    ((m.Index < 0 ∨ m.VisibleItems.length = 0 ∨ (m.VisibleItems.length : Int) ≤ m.Index) →
      m.SelectedItem = none) ∧
    (0 ≤ m.Index → m.Index < (m.VisibleItems.length : Int) →
      ∃ hlt : m.Index.toNat < m.VisibleItems.length,
        m.SelectedItem = some (m.VisibleItems.get ⟨m.Index.toNat, hlt⟩)) := by
  constructor
  · intro h
    unfold ListScreen.SelectedItem
    rw [if_pos h]
  · intro h0 h1
    have hlt : m.Index.toNat < m.VisibleItems.length := by omega
    refine ⟨hlt, ?_⟩
    unfold ListScreen.SelectedItem
    rw [if_neg (by omega)]
    rw [List.getElem?_eq_getElem hlt]
    rfl

/-- C10 witness: both branches on concrete states — the empty visible
list yields `none`, an in-bounds selection yields the item. -/
theorem C10_selectedItem_safe_witness :
    stC10a.SelectedItem = none ∧ stC10b.SelectedItem = some itemB := by
  constructor
  · exact (C10_selectedItem_safe stC10a).1 (by decide)
  · obtain ⟨hlt, he⟩ := (C10_selectedItem_safe stC10b).2 (by decide) (by decide)
    rw [he]
    rfl
